import Mathlib

/-!
Verification of the exoplanet-detection core in
`src/scripts/real-ml-processor.py` (class `RealExoplanetDetector`).

The numeric model: Python floats are modelled as exact numbers — rationals
(`ℚ`) wherever the source only adds, multiplies, divides and compares, and
reals (`ℝ`) where the source takes square roots, powers, `exp` or works on
the logarithmically spaced period grid.  Division by zero follows the usual
Lean convention `x / 0 = 0`; every place where the source can actually divide
by zero is called out in the corresponding doc comment.  `scipy.optimize.minimize`
is external library code and is abstracted by its outcome (`none` for a raised
exception, `some p` for a returned parameter vector); everything after the
optimizer call is embedded from the source.
-/

set_option maxRecDepth 20000

namespace RealML

/-- Embedding of `np.mean` of a list of rationals: sum divided by length (0 on the empty
list, where numpy warns and yields NaN). -/
def meanQ (l : List ℚ) : ℚ := l.sum / l.length

/-- Square of `np.std` (population variance, `ddof = 0`): mean of squared
deviations from the mean. -/
def varQ (l : List ℚ) : ℚ := ((l.map (fun x => (x - meanQ l) ^ 2)).sum) / l.length

/-- Embedding of `np.std` of a list of rationals: the real square root of the variance. -/
noncomputable def stdQ (l : List ℚ) : ℝ := Real.sqrt (varQ l)

/-- Embedding of `np.median`: sort, then take the middle element (odd length) or the mean
of the two middle elements (even length); 0 on the empty list (numpy: NaN).
The sort is modelled by `List.insertionSort` (a correct comparison sort that
the kernel can evaluate; numpy's introsort visits ties in unspecified order,
and no claim depends on the order of tied elements). -/
def medianQ (l : List ℚ) : ℚ :=
  if l.length % 2 = 1 then (l.insertionSort (· ≤ ·)).getD (l.length / 2) 0
  else ((l.insertionSort (· ≤ ·)).getD (l.length / 2 - 1) 0
        + (l.insertionSort (· ≤ ·)).getD (l.length / 2) 0) / 2

/-- One raw sample value: `some q` is a finite float, `none` a non-finite
entry (NaN or an infinity), which `np.isfinite` rejects. -/
abbrev RawV := Option ℚ

/-- Lines 28-30 of `preprocess_lightcurve`: keep the indices where both time
and flux are finite, pairing the two equal-length arrays pointwise. -/
def preprocess_points (time flux : List RawV) : List (ℚ × ℚ) :=
  (time.zip flux).filterMap fun p => p.1.bind fun a => p.2.map fun b => (a, b)

/-- Lines 32-34: sort the kept points by time (`np.argsort(time)`). -/
def preprocess_sorted (time flux : List RawV) : List (ℚ × ℚ) :=
  (preprocess_points time flux).insertionSort fun x y => x.1 ≤ y.1

/-- Lines 36-38: normalize flux by dividing by its median. -/
def preprocess_norm (time flux : List RawV) : List (ℚ × ℚ) :=
  (preprocess_sorted time flux).map fun p =>
    (p.1, p.2 / medianQ ((preprocess_sorted time flux).map Prod.snd))

/-- Lines 40-45: one-pass 3-sigma clipping, keeping points with
`|flux - median| < 3 * std`.  The comparison is taken on squares,
`(flux - median)^2 < 9 * variance`, which is equivalent to the source's
form (both sides are nonnegative and squaring is strictly monotone there;
`sq_lt_iff_abs_lt_three_std` below proves the equivalence) and keeps the
definition computable over `ℚ`. -/
def preprocess_kept (time flux : List RawV) : List (ℚ × ℚ) :=
  (preprocess_norm time flux).filter fun p =>
    decide ((p.2 - medianQ ((preprocess_norm time flux).map Prod.snd)) ^ 2
      < 9 * varQ ((preprocess_norm time flux).map Prod.snd))

/-- Embedding of `preprocess_lightcurve` (src/scripts/real-ml-processor.py, lines 24-45):
drop non-finite entries, sort by time, normalize flux by its median, then
sigma-clip.  Returns the cleaned `(time, flux)` pair. -/
def preprocess_lightcurve (time flux : List RawV) : List ℚ × List ℚ :=
  ((preprocess_kept time flux).map Prod.fst, (preprocess_kept time flux).map Prod.snd)

/-- Embedding of `preprocess_lightcurve` applied to already-finite numeric arrays, as
happens when the preprocessor is re-run on its own output. -/
def preprocessQ (time flux : List ℚ) : List ℚ × List ℚ :=
  preprocess_lightcurve (time.map some) (flux.map some)

/-- Embedding of `np.mean` over reals. -/
noncomputable def meanR (l : List ℝ) : ℝ := l.sum / l.length

/-- Population variance over reals. -/
noncomputable def varR (l : List ℝ) : ℝ := ((l.map (fun x => (x - meanR l) ^ 2)).sum) / l.length

/-- Embedding of `np.std` over reals. -/
noncomputable def stdR (l : List ℝ) : ℝ := Real.sqrt (varR l)

/-- The in-transit flux values of `_calculate_bls_power` (lines 88-94):
the flux entries whose phase satisfies `|phase - t0_frac| < duration_frac / 2`. -/
noncomputable def flux_in_transit (phase flux : List ℝ) (t0_frac duration_frac : ℝ) : List ℝ :=
  ((phase.zip flux).filter fun pf => decide (|pf.1 - t0_frac| < duration_frac / 2)).map Prod.snd

/-- The out-of-transit flux values (`flux[~transit_mask]`, lines 88-95). -/
noncomputable def flux_out_transit (phase flux : List ℝ) (t0_frac duration_frac : ℝ) : List ℝ :=
  ((phase.zip flux).filter fun pf => decide (¬ |pf.1 - t0_frac| < duration_frac / 2)).map Prod.snd

/-- Embedding of `_calculate_bls_power` (lines 84-113): 0 when fewer than 3 points are in
transit, 0 when either side of the partition is empty, 0 when the
out-of-transit standard deviation is 0, and otherwise
`max 0 ((mean_out - mean_in) * sqrt(n_in * n_out / (n_in + n_out)) / std_out)`. -/
noncomputable def _calculate_bls_power (phase flux : List ℝ) (t0_frac duration_frac : ℝ) : ℝ :=
  if (flux_in_transit phase flux t0_frac duration_frac).length < 3 then 0
  else if (flux_in_transit phase flux t0_frac duration_frac).length = 0
       ∨ (flux_out_transit phase flux t0_frac duration_frac).length = 0 then 0
  else if stdR (flux_out_transit phase flux t0_frac duration_frac) = 0 then 0
  else
    max 0 ((meanR (flux_out_transit phase flux t0_frac duration_frac)
            - meanR (flux_in_transit phase flux t0_frac duration_frac))
      * Real.sqrt (((flux_in_transit phase flux t0_frac duration_frac).length : ℝ)
          * ((flux_out_transit phase flux t0_frac duration_frac).length : ℝ)
          / (((flux_in_transit phase flux t0_frac duration_frac).length : ℝ)
             + ((flux_out_transit phase flux t0_frac duration_frac).length : ℝ)))
      / stdR (flux_out_transit phase flux t0_frac duration_frac))

/-- Embedding of `self.min_period` (line 19). -/
noncomputable def min_period : ℝ := 1/2

/-- Embedding of `self.max_period` (line 20). -/
noncomputable def max_period : ℝ := 50

/-- Embedding of `self.detection_threshold` (line 22). -/
noncomputable def detection_threshold : ℝ := 7

/-- Embedding of `np.logspace(np.log10(0.5), np.log10(50.0), 1000)` (line 52): 1000
logarithmically spaced periods from `min_period` to `max_period`. -/
noncomputable def periods : List ℝ :=
  (List.range 1000).map fun i : ℕ =>
    (10 : ℝ) ^ (Real.logb 10 min_period
      + (i : ℝ) * ((Real.logb 10 max_period - Real.logb 10 min_period) / 999))

/-- Embedding of `np.linspace(0.01, 0.2, 20)` (line 63): the transit duration fractions. -/
noncomputable def duration_fracs : List ℝ :=
  (List.range 20).map fun j : ℕ => 1/100 + (j : ℝ) * ((2/10 - 1/100) / 19)

/-- Embedding of `np.linspace(0, 1, 50)` (line 67): the candidate transit centers. -/
noncomputable def t0_fracs : List ℝ :=
  (List.range 50).map fun k : ℕ => (k : ℝ) * (1 / 49)

/-- One `(period, duration_frac, t0_frac)` combination of the BLS grid. -/
abbrev GridPoint := ℝ × ℝ × ℝ

/-- The full search grid, nested exactly as the three loops of lines 58-67:
periods outermost, then duration fractions, then transit centers. -/
noncomputable def blsGrid : List GridPoint :=
  periods.flatMap fun P => duration_fracs.flatMap fun d => t0_fracs.map fun t0f => (P, d, t0f)

/-- Python float `%` with a positive divisor (`t - P * ⌊t / P⌋`), as used by
`np.mod` for phase folding. -/
noncomputable def pymod (t P : ℝ) : ℝ := t - P * ⌊t / P⌋

/-- Line 60: `phase = (time % period) / period` for the whole time array. -/
noncomputable def phaseFold (time : List ℝ) (P : ℝ) : List ℝ :=
  time.map fun t => pymod t P / P

/-- The best-candidate record tracked by `box_least_squares` (lines 53-56
and 77-82). -/
structure BLSCandidate where
  period : ℝ
  power : ℝ
  t0 : ℝ
  duration : ℝ

/-- The BLS power of one grid combination (line 69). -/
noncomputable def blsPowerAt (time flux : List ℝ) (g : GridPoint) : ℝ :=
  _calculate_bls_power (phaseFold time g.1) flux g.2.2 g.2.1

/-- The candidate recorded when a grid combination becomes the running best
(lines 72-75): `t0 = t0_frac * period` and `duration = duration_frac * period`. -/
noncomputable def blsCandidateAt (time flux : List ℝ) (g : GridPoint) : BLSCandidate :=
  ⟨g.1, blsPowerAt time flux g, g.2.2 * g.1, g.2.1 * g.1⟩

/-- One iteration of the `if power > best_power` update (lines 71-75). -/
noncomputable def blsStep (time flux : List ℝ) (best : BLSCandidate) (g : GridPoint) : BLSCandidate :=
  if best.power < blsPowerAt time flux g then blsCandidateAt time flux g else best

/-- Embedding of `box_least_squares` (lines 47-82): fold the strict-improvement update over
the whole grid, starting from the all-zero candidate of lines 53-56. -/
noncomputable def box_least_squares (time flux : List ℝ) : BLSCandidate :=
  blsGrid.foldl (blsStep time flux) ⟨0, 0, 0, 0⟩

/-- A parameter vector `(depth, period, t0, duration)` as produced by the
optimizer in `fit_transit_model`. -/
structure FitParams where
  depth : ℚ
  period : ℚ
  t0 : ℚ
  duration : ℚ
deriving DecidableEq

/-- Python float `%` over rationals, `a - b * ⌊a / b⌋` (for `b = 0` this
leaves `a`; the source would produce NaN there with a warning). -/
def pymodQ (a b : ℚ) : ℚ := a - b * ⌊a / b⌋

/-- Embedding of `transit_model` (lines 121-133): phase fold around `t0`, center phases
above 0.5 to the negative side, and return a box model that is `1 - depth`
in transit and 1 outside. -/
def transit_model (time : List ℚ) (p : FitParams) : List ℚ :=
  time.map fun t =>
    if |(if 1/2 < pymodQ (t - p.t0) p.period / p.period
         then pymodQ (t - p.t0) p.period / p.period - 1
         else pymodQ (t - p.t0) p.period / p.period) * p.period| < p.duration / 2
    then 1 - p.depth else 1

/-- The dictionary returned by a successful `fit_transit_model` (lines 161-169). -/
structure TransitFit where
  depth : ℚ
  period : ℚ
  t0 : ℚ
  duration : ℚ
  chi2 : ℚ
  reduced_chi2 : ℚ
  model_flux : List ℚ
deriving DecidableEq

/-- Embedding of `fit_transit_model` (lines 115-171).  `scipy.optimize.minimize` is
external library code; its outcome is the argument `opt`: `none` when the
solver raises (caught by the bare `except` of line 170, which returns
`None`), `some p` when it returns the parameter vector `p`.  The rest is
lines 153-169 of the source: evaluate the box model at the fitted
parameters, `chi2 = Σ residual²` and `reduced_chi2 = chi2 / (N - 4)`.  The
source has no check on `N`: for `N = 4` it divides by zero (numpy produces
inf with a warning, not an exception — the bare `except` does not fire), and
for `N < 4` the denominator is negative.  The seed arguments of lines
146-148 only feed the abstracted optimizer and are unused here. -/
def fit_transit_model (time flux : List ℚ) (period t0 duration : ℝ)
    (opt : Option FitParams) : Option TransitFit :=
  opt.map fun p =>
    ⟨p.depth, p.period, p.t0, p.duration,
      ((flux.zip (transit_model time p)).map fun q => (q.1 - q.2) ^ 2).sum,
      (((flux.zip (transit_model time p)).map fun q => (q.1 - q.2) ^ 2).sum)
        / ((flux.length : ℚ) - 4),
      transit_model time p⟩

/-- Python `round(x, n)` up to the tie-breaking rule: Python rounds
half-to-even, `round` here rounds half-up; the two agree except at exact
midpoints, which no claim exercises. -/
noncomputable def roundTo (n : ℕ) (x : ℝ) : ℝ := (round (x * 10 ^ n) : ℤ) / 10 ^ n

/-- The dictionary returned by `calculate_planet_properties` (lines 193-199). -/
structure PlanetProperties where
  radius_earth : ℝ
  period_days : ℝ
  semi_major_axis_au : ℝ
  equilibrium_temp_k : ℝ
  orbital_velocity_kms : ℝ

/-- Embedding of `calculate_planet_properties` (lines 173-199). -/
noncomputable def calculate_planet_properties (depth period stellar_radius : ℝ) : PlanetProperties :=
  ⟨roundTo 2 (Real.sqrt depth * stellar_radius * 109.2),
   roundTo 3 period,
   roundTo 4 (((period / 365.25) ^ 2 * 1) ^ ((1 : ℝ)/3)),
   roundTo 1 (5778 * Real.sqrt (stellar_radius / (2 * ((period / 365.25) ^ 2 * 1) ^ ((1 : ℝ)/3) * 215))),
   roundTo 2 (2 * Real.pi * ((period / 365.25) ^ 2 * 1) ^ ((1 : ℝ)/3) * 149.6e6 / (period * 24 * 3600) / 1000)⟩

/-- The dictionary returned by `calculate_detection_significance`
(lines 220-225). -/
structure SignificanceResult where
  snr : ℝ
  confidence_percent : ℝ
  false_alarm_probability : ℝ
  detection_significance_sigma : ℝ

/-- Line 206: `residuals = flux - model_flux`. -/
def residualsQ (flux model : List ℚ) : List ℚ := (flux.zip model).map fun p => p.1 - p.2

/-- Embedding of `np.max` on a nonempty list (numpy raises on an empty one; 0 here). -/
def maxQ : List ℚ → ℚ
  | [] => 0
  | a :: t => t.foldl max a

/-- Embedding of `np.min` on a nonempty list (numpy raises on an empty one; 0 here). -/
def minQ : List ℚ → ℚ
  | [] => 0
  | a :: t => t.foldl min a

/-- Embedding of `calculate_detection_significance` (lines 201-225).  Total: the source
has no zero-noise check; when `std(residuals) = 0` it computes
`signal_depth / 0` (numpy: inf or nan with a warning, no exception; in this
embedding the quotient is the junk value 0) and still returns a numeric
dictionary.  The `time` argument is unused by the source as well. -/
noncomputable def calculate_detection_significance (time flux model_flux : List ℚ) :
    SignificanceResult :=
  ⟨roundTo 2 ((((maxQ model_flux : ℚ) : ℝ) - ((minQ model_flux : ℚ) : ℝ))
      / stdQ (residualsQ flux model_flux)),
   roundTo 1 (max 0 (min 100 (((((maxQ model_flux : ℚ) : ℝ) - ((minQ model_flux : ℚ) : ℝ))
      / stdQ (residualsQ flux model_flux) - 3) / 7 * 100))),
   roundTo 6 (1 / (1 + Real.exp ((((maxQ model_flux : ℚ) : ℝ) - ((minQ model_flux : ℚ) : ℝ))
      / stdQ (residualsQ flux model_flux) - 5))),
   roundTo 1 ((((maxQ model_flux : ℚ) : ℝ) - ((minQ model_flux : ℚ) : ℝ))
      / stdQ (residualsQ flux model_flux))⟩

/-- The significance evaluator as §4.4 of the spec words it: it "fails with
NumericalError if noise_std = 0" (`noise_std = 0` iff the residual variance
is 0).  Stated from the spec for comparison with the source's total
`calculate_detection_significance`; the source has no such failure path. -/
noncomputable def significance_spec (time flux model_flux : List ℚ) : Option SignificanceResult :=
  if varQ (residualsQ flux model_flux) = 0 then none
  else some (calculate_detection_significance time flux model_flux)

/-- The `analysis` object of the accepted/completed branch (lines 310-315). -/
structure AnalysisMetrics where
  bls_power : ℝ
  signal_to_noise : ℝ
  detection_significance : ℝ
  false_alarm_probability : ℝ

/-- The `transit_parameters` object (lines 317-322). -/
structure TransitParameters where
  depth_ppm : ℝ
  period_days : ℝ
  duration_hours : ℝ
  reduced_chi_squared : ℝ

/-- The four result shapes `analyze_lightcurve` can return: an error object,
the pre-fit rejection of lines 267-276 (confidence 15, `bls_power`,
`best_period` and a message in `analysis`), the fit-failure rejection of
lines 286-291 (confidence 25), and the completed result of lines 307-323. -/
inductive DetectionResult where
  | error (msg : String)
  | rejectedNoSignal (confidence bls_power best_period : ℝ) (message : String)
  | rejectedFitFailed (confidence : ℝ) (message : String)
  | completed (planet_detected : Prop) (confidence : ℝ) (analysis : AnalysisMetrics)
      (planet_properties : Option PlanetProperties)
      (transit_parameters : Option TransitParameters)

/-- The `planet_detected` field: `False` on every error or rejected shape. -/
def DetectionResult.detected : DetectionResult → Prop
  | .completed d _ _ _ _ => d
  | _ => False

/-- The `planet_properties` field: absent (`none`) on every shape but the
completed one. -/
def DetectionResult.planetProperties : DetectionResult → Option PlanetProperties
  | .completed _ _ _ p _ => p
  | _ => none

/-- One parsed CSV row: a (time, flux) pair of possibly non-finite values. -/
abbrev RawRow := RawV × RawV

/-- The cleaned series of a run: `preprocess_lightcurve` applied to the two
columns of the parsed rows (line 258). -/
def cleanedOf (raw : List RawRow) : List ℚ × List ℚ :=
  preprocess_lightcurve (raw.map Prod.fst) (raw.map Prod.snd)

/-- The cleaned time column, cast to `ℝ` for the BLS stage. -/
noncomputable def blsInputT (raw : List RawRow) : List ℝ :=
  (cleanedOf raw).1.map fun q : ℚ => (q : ℝ)

/-- The cleaned flux column, cast to `ℝ` for the BLS stage. -/
noncomputable def blsInputF (raw : List RawRow) : List ℝ :=
  (cleanedOf raw).2.map fun q : ℚ => (q : ℝ)

/-- The fit stage of the pipeline (lines 279-284), seeded by a BLS candidate. -/
noncomputable def fitWith (raw : List RawRow) (b : BLSCandidate) (opt : Option FitParams) :
    Option TransitFit :=
  fit_transit_model (cleanedOf raw).1 (cleanedOf raw).2 b.period b.t0 b.duration opt

/-- The significance stage of the pipeline (lines 300-302). -/
noncomputable def sigOf (raw : List RawRow) (tf : TransitFit) : SignificanceResult :=
  calculate_detection_significance (cleanedOf raw).1 (cleanedOf raw).2 tf.model_flux

/-- Line 305: `planet_detected = significance['snr'] > 5.0 and
significance['confidence_percent'] > 70` (on the rounded dictionary values). -/
def detectedGate (s : SignificanceResult) : Prop :=
  5 < s.snr ∧ 70 < s.confidence_percent

open Classical in
/-- Embedding of `analyze_lightcurve` (lines 227-326) from the point where the CSV rows
have been parsed into numeric pairs (the text parsing of lines 232-255 is
the ingestion collaborator; `raw` is the `data` list it builds, and the
100-row check of lines 249-250 is kept).  The BLS implementation is a
parameter so that theorems can express that a branch never reaches it;
`analyze_lightcurve` below instantiates it with `box_least_squares`. -/
noncomputable def analyzeWith (bls : List ℝ → List ℝ → BLSCandidate)
    (raw : List RawRow) (opt : Option FitParams) : DetectionResult :=
  if raw.length < 100 then .error "Insufficient data points. Need at least 100 measurements."
  else if (cleanedOf raw).1.length < 50 then
    .error "Too few valid data points after preprocessing"
  else if (bls (blsInputT raw) (blsInputF raw)).power < detection_threshold then
    .rejectedNoSignal 15 (roundTo 2 (bls (blsInputT raw) (blsInputF raw)).power)
      (roundTo 3 (bls (blsInputT raw) (blsInputF raw)).period)
      "No significant periodic signal detected"
  else
    match fitWith raw (bls (blsInputT raw) (blsInputF raw)) opt with
    | none => .rejectedFitFailed 25 "Transit model fitting failed"
    | some tf =>
      .completed (detectedGate (sigOf raw tf)) (sigOf raw tf).confidence_percent
        ⟨roundTo 2 (bls (blsInputT raw) (blsInputF raw)).power, (sigOf raw tf).snr,
          (sigOf raw tf).detection_significance_sigma, (sigOf raw tf).false_alarm_probability⟩
        (if detectedGate (sigOf raw tf)
         then some (calculate_planet_properties (tf.depth : ℝ) (tf.period : ℝ) 1) else none)
        (if detectedGate (sigOf raw tf)
         then some ⟨roundTo 1 ((tf.depth : ℝ) * 1000000), roundTo 3 (tf.period : ℝ),
            roundTo 2 ((tf.duration : ℝ) * 24), roundTo 3 (tf.reduced_chi2 : ℝ)⟩ else none)

/-- The pipeline as the source runs it, with the real BLS search. -/
noncomputable def analyze_lightcurve (raw : List RawRow) (opt : Option FitParams) :
    DetectionResult :=
  analyzeWith box_least_squares raw opt

/-- The BLS candidate of a run. -/
noncomputable def blsOf (raw : List RawRow) : BLSCandidate :=
  box_least_squares (blsInputT raw) (blsInputF raw)

/-- The transit fit of a run. -/
noncomputable def fitOf (raw : List RawRow) (opt : Option FitParams) : Option TransitFit :=
  fitWith raw (blsOf raw) opt

/-- Control flow: the call to `calculate_planet_properties` at line 294
executes exactly when the run passes both input checks, the BLS gate
passes, and the fit returns — the significance gate of line 305 is only
evaluated afterwards. -/
noncomputable def props_invoked (raw : List RawRow) (opt : Option FitParams) : Prop :=
  100 ≤ raw.length ∧ 50 ≤ (cleanedOf raw).1.length ∧
    detection_threshold ≤ (blsOf raw).power ∧ (fitOf raw opt).isSome = true


/-! Concrete inputs used by counterexamples and witnesses. -/

/-- Ten time stamps. -/
def timesC5 : List ℚ := [0, 1, 2, 3, 4, 5, 6, 7, 8, 9]

/-- Nine equal flux values and one high outlier: after cleaning, the nine
survivors are constant, so a second cleaning pass clips them all. -/
def fluxC5 : List ℚ := [10, 10, 10, 10, 10, 10, 10, 10, 10, 100]

/-- 101 parsed rows whose cleaned flux is constant: 100 points of flux 1 and
one outlier of flux 2 that the sigma clip removes. -/
def rawC10 : List RawRow :=
  ((List.range 100).map fun i : ℕ => ((some (i : ℚ), some 1) : RawRow)) ++ [(some 100, some 2)]

/-- A time-flux pair with a box dip of depth 1/10 at phase 0 of period 1/2:
the dip points sit at times `k/2` (k = 0..8), the out-of-transit points at
`k/2 + 1/10` and `k/2 + 3/10`, with two out-of-transit flux values nudged by
1/1000 so the out-of-transit variance is positive.  All 50 points survive
the 3-sigma clip. -/
def c9pair (t : ℚ) : ℚ × ℚ :=
  if t * 2 = (⌊t * 2⌋ : ℚ) then (t, 9/10)
  else if t = 49/5 then (t, 999/1000)
  else if t = 101/10 then (t, 1001/1000)
  else (t, 1)

/-- The 50 time stamps of the dip series, in increasing order. -/
def c9times : List ℚ :=
  ((List.range 9).flatMap fun k : ℕ => [(k : ℚ) / 2, (k : ℚ) / 2 + 1/10, (k : ℚ) / 2 + 3/10])
  ++ ((List.range 11).flatMap fun j : ℕ => [((j : ℚ) + 9) / 2 + 1/10, ((j : ℚ) + 9) / 2 + 3/10])
  ++ [10 + 1/10]

/-- The 50 rows of the dip series. -/
def c9rows : List (ℚ × ℚ) := c9times.map c9pair

/-- The cleaned time column of `rawC9`. -/
def timesC9Q : List ℚ := c9rows.map Prod.fst

/-- The cleaned flux column of `rawC9`. -/
def fluxC9Q : List ℚ := c9rows.map Prod.snd

/-- 101 parsed rows: the 50 dip-series points plus 51 non-finite rows, so the
ingestion 100-row floor passes while the cleaned series has exactly 50
points. -/
def rawC9 : List RawRow :=
  (c9rows.map fun p => ((some p.1, some p.2) : RawRow))
  ++ (List.replicate 51 ((none, none) : RawRow))

/-- A degenerate fitted parameter vector with depth 0: its box model is
identically 1, so the fitted signal depth is 0 and the significance gate
rejects. -/
def paramsC9 : FitParams := ⟨0, 1, 0, 1/10⟩

/-- 100 parsed rows of which only 30 are finite, so the cleaned series has 30
points — below the 50-point floor. -/
def rawC6 : List RawRow :=
  ((List.range 30).map fun i : ℕ =>
    ((some (i : ℚ), some (if i % 3 = 1 then 101/100 else if i % 3 = 2 then 99/100 else 1)) : RawRow))
  ++ (List.replicate 70 ((none, none) : RawRow))

/-- Four time stamps, for fitting with N = 4 points. -/
def timesC3 : List ℚ := [0, 1, 2, 3]

/-- Four flux values, for fitting with N = 4 points. -/
def fluxC3 : List ℚ := [1, 1, 1, 1]

/-- A parameter vector the abstracted optimizer may return on the 4-point
series. -/
def paramsC3 : FitParams := ⟨1/100, 1, 0, 1/10⟩

/-- Four time stamps for the zero-residual significance input. -/
def timesC4 : List ℚ := [0, 1, 2, 3]

/-- Flux equal to the model, so the residuals are identically zero. -/
def fluxC4 : List ℚ := [1, 99/100, 1, 1]

/-- A model with a dip, equal to the observed flux. -/
def modelC4 : List ℚ := [1, 99/100, 1, 1]

/-! Rational mirrors of the in/out-of-transit selections, and transfer
lemmas between the rational and the real computations. -/

/-- Embedding of `flux_in_transit` over rationals (same mask, same selection). -/
def flux_in_transitQ (phase flux : List ℚ) (t0_frac duration_frac : ℚ) : List ℚ :=
  ((phase.zip flux).filter fun pf => decide (|pf.1 - t0_frac| < duration_frac / 2)).map Prod.snd

/-- Embedding of `flux_out_transit` over rationals. -/
def flux_out_transitQ (phase flux : List ℚ) (t0_frac duration_frac : ℚ) : List ℚ :=
  ((phase.zip flux).filter fun pf => decide (¬ |pf.1 - t0_frac| < duration_frac / 2)).map Prod.snd

/-- The grid point `(period, duration_frac, t0_frac) = (1/2, 1/100, 0)`: the
head of each of the three grids. -/
noncomputable def g0 : GridPoint := (1/2, 1/100, 0)

/-! Helper lemmas. -/

lemma varQ_nonneg (l : List ℚ) : 0 ≤ varQ l := by
  unfold varQ
  apply div_nonneg _ (by positivity)
  apply List.sum_nonneg
  intro x hx
  obtain ⟨y, _, rfl⟩ := List.mem_map.mp hx
  positivity

lemma varR_nonneg (l : List ℝ) : 0 ≤ varR l := by
  unfold varR
  apply div_nonneg _ (by positivity)
  apply List.sum_nonneg
  intro x hx
  obtain ⟨y, _, rfl⟩ := List.mem_map.mp hx
  positivity

/-- The clipping comparison of `preprocess_kept` is the source's
`|flux - median| < 3 * std` comparison: for a nonnegative variance `v`,
`|a| < 3 * sqrt v` iff `a^2 < 9 * v`. -/
lemma sq_lt_iff_abs_lt_three_std (a v : ℚ) (hv : 0 ≤ v) :
    a ^ 2 < 9 * v ↔ |(a : ℝ)| < 3 * Real.sqrt (v : ℝ) := by
  rw [show (3 : ℝ) * Real.sqrt v = Real.sqrt (9 * v) by
      rw [show (9 : ℝ) * v = 3 ^ 2 * v by ring, Real.sqrt_mul (by positivity),
        Real.sqrt_sq (by norm_num)]]
  rw [show |(a : ℝ)| = Real.sqrt (a ^ 2) by rw [Real.sqrt_sq_eq_abs]]
  rw [Real.sqrt_lt_sqrt_iff (by positivity)]
  constructor
  · intro h
    exact_mod_cast h
  · intro h
    exact_mod_cast h

/-- The exact clipping predicate of `preprocess_kept` is the source's
`|flux - median| < 3 * std` comparison. -/
lemma preprocess_clip_pred_iff_source (time flux : List RawV) (p : ℚ × ℚ) :
    ((p.2 - medianQ ((preprocess_norm time flux).map Prod.snd)) ^ 2
      < 9 * varQ ((preprocess_norm time flux).map Prod.snd))
    ↔ |((p.2 : ℚ) : ℝ) - ((medianQ ((preprocess_norm time flux).map Prod.snd) : ℚ) : ℝ)|
        < 3 * Real.sqrt ((varQ ((preprocess_norm time flux).map Prod.snd) : ℚ) : ℝ) := by
  rw [sq_lt_iff_abs_lt_three_std _ _ (varQ_nonneg _)]
  rw [show ((p.2 - medianQ ((preprocess_norm time flux).map Prod.snd) : ℚ) : ℝ)
      = ((p.2 : ℚ) : ℝ) - ((medianQ ((preprocess_norm time flux).map Prod.snd) : ℚ) : ℝ) by
    push_cast
    ring]

lemma stdR_eq_zero_iff (l : List ℝ) : stdR l = 0 ↔ varR l = 0 := by
  unfold stdR
  rw [Real.sqrt_eq_zero (varR_nonneg l)]

lemma stdQ_eq_zero_iff (l : List ℚ) : stdQ l = 0 ↔ varQ l = 0 := by
  unfold stdQ
  rw [Real.sqrt_eq_zero (by exact_mod_cast varQ_nonneg l)]
  exact_mod_cast Iff.rfl

lemma list_sum_cast (l : List ℚ) : ((l.map fun q : ℚ => (q : ℝ)).sum) = ((l.sum : ℚ) : ℝ) := by
  induction l with
  | nil => simp
  | cons a t ih => rw [List.map_cons, List.sum_cons, List.sum_cons, Rat.cast_add, ih]

lemma meanR_cast (l : List ℚ) : meanR (l.map fun q : ℚ => (q : ℝ)) = ((meanQ l : ℚ) : ℝ) := by
  unfold meanR meanQ
  rw [list_sum_cast, List.length_map]
  push_cast
  ring

lemma varR_cast (l : List ℚ) : varR (l.map fun q : ℚ => (q : ℝ)) = ((varQ l : ℚ) : ℝ) := by
  unfold varR varQ
  have h1 : ((l.map fun q : ℚ => (q : ℝ)).map fun x => (x - meanR (l.map fun q : ℚ => (q : ℝ))) ^ 2)
      = ((l.map fun x => (x - meanQ l) ^ 2).map fun q : ℚ => (q : ℝ)) := by
    rw [List.map_map, List.map_map]
    refine List.map_congr_left fun a ha => ?_
    simp only [Function.comp]
    rw [meanR_cast]
    push_cast
    ring
  rw [h1, list_sum_cast, List.length_map]
  push_cast
  ring

lemma stdR_cast (l : List ℚ) : stdR (l.map fun q : ℚ => (q : ℝ)) = stdQ l := by
  unfold stdR stdQ
  rw [varR_cast]

lemma flux_in_transit_cast (phase flux : List ℚ) (t0f df : ℚ) :
    flux_in_transit (phase.map fun q : ℚ => (q : ℝ)) (flux.map fun q : ℚ => (q : ℝ))
        ((t0f : ℚ) : ℝ) ((df : ℚ) : ℝ)
      = (flux_in_transitQ phase flux t0f df).map fun q : ℚ => (q : ℝ) := by
  unfold flux_in_transit flux_in_transitQ
  rw [List.zip_map, List.filter_map, List.map_map, List.map_map]
  have hp : ((fun pf : ℝ × ℝ => decide (|pf.1 - ((t0f : ℚ) : ℝ)| < ((df : ℚ) : ℝ) / 2))
        ∘ Prod.map (fun q : ℚ => (q : ℝ)) (fun q : ℚ => (q : ℝ)))
      = fun pf : ℚ × ℚ => decide (|pf.1 - t0f| < df / 2) := by
    funext a
    simp only [Function.comp, Prod.map]
    rw [decide_eq_decide]
    constructor
    · intro h
      exact_mod_cast h
    · intro h
      exact_mod_cast h
  rw [hp]
  rfl

lemma flux_out_transit_cast (phase flux : List ℚ) (t0f df : ℚ) :
    flux_out_transit (phase.map fun q : ℚ => (q : ℝ)) (flux.map fun q : ℚ => (q : ℝ))
        ((t0f : ℚ) : ℝ) ((df : ℚ) : ℝ)
      = (flux_out_transitQ phase flux t0f df).map fun q : ℚ => (q : ℝ) := by
  unfold flux_out_transit flux_out_transitQ
  rw [List.zip_map, List.filter_map, List.map_map, List.map_map]
  have hp : ((fun pf : ℝ × ℝ => decide (¬ |pf.1 - ((t0f : ℚ) : ℝ)| < ((df : ℚ) : ℝ) / 2))
        ∘ Prod.map (fun q : ℚ => (q : ℝ)) (fun q : ℚ => (q : ℝ)))
      = fun pf : ℚ × ℚ => decide (¬ |pf.1 - t0f| < df / 2) := by
    funext a
    simp only [Function.comp, Prod.map]
    rw [decide_eq_decide]
    constructor
    · intro h hc
      exact h (by exact_mod_cast hc)
    · intro h hc
      exact h (by exact_mod_cast hc)
  rw [hp]
  rfl

/-- The non-degenerate branch of `_calculate_bls_power` on cast rational
data, expressed through the rational mirrors. -/
lemma bls_power_of_pieces (phase flux : List ℚ) (t0f df : ℚ)
    (h3 : ¬ (flux_in_transitQ phase flux t0f df).length < 3)
    (h0 : ¬ ((flux_in_transitQ phase flux t0f df).length = 0
           ∨ (flux_out_transitQ phase flux t0f df).length = 0))
    (hv : ¬ varQ (flux_out_transitQ phase flux t0f df) = 0) :
    _calculate_bls_power (phase.map fun q : ℚ => (q : ℝ)) (flux.map fun q : ℚ => (q : ℝ))
        ((t0f : ℚ) : ℝ) ((df : ℚ) : ℝ)
      = max 0 ((((meanQ (flux_out_transitQ phase flux t0f df) : ℚ) : ℝ)
              - ((meanQ (flux_in_transitQ phase flux t0f df) : ℚ) : ℝ))
        * Real.sqrt (((flux_in_transitQ phase flux t0f df).length : ℝ)
            * ((flux_out_transitQ phase flux t0f df).length : ℝ)
            / (((flux_in_transitQ phase flux t0f df).length : ℝ)
               + ((flux_out_transitQ phase flux t0f df).length : ℝ)))
        / Real.sqrt ((varQ (flux_out_transitQ phase flux t0f df) : ℚ) : ℝ)) := by
  unfold _calculate_bls_power
  rw [flux_in_transit_cast, flux_out_transit_cast, meanR_cast, meanR_cast, stdR_cast]
  rw [List.length_map, List.length_map]
  rw [if_neg h3, if_neg h0, if_neg (by rw [stdQ_eq_zero_iff]; exact hv)]
  rfl

/-- If every flux value is the same, every BLS power is 0: either one of the
guards of `_calculate_bls_power` fires, or the out-minus-in mean difference
is 0. -/
lemma bls_power_of_const {flux : List ℝ} {c : ℝ} (hc : ∀ x ∈ flux, x = c)
    (phase : List ℝ) (t0f df : ℝ) :
    _calculate_bls_power phase flux t0f df = 0 := by
  have hin : ∀ x ∈ flux_in_transit phase flux t0f df, x = c := by
    intro x hx
    obtain ⟨p, hp, rfl⟩ := List.mem_map.mp hx
    exact hc _ (List.of_mem_zip (List.mem_of_mem_filter hp)).2
  have hout : ∀ x ∈ flux_out_transit phase flux t0f df, x = c := by
    intro x hx
    obtain ⟨p, hp, rfl⟩ := List.mem_map.mp hx
    exact hc _ (List.of_mem_zip (List.mem_of_mem_filter hp)).2
  unfold _calculate_bls_power
  by_cases h3 : (flux_in_transit phase flux t0f df).length < 3
  · rw [if_pos h3]
  rw [if_neg h3]
  by_cases h0 : (flux_in_transit phase flux t0f df).length = 0
      ∨ (flux_out_transit phase flux t0f df).length = 0
  · rw [if_pos h0]
  rw [if_neg h0]
  by_cases hs : stdR (flux_out_transit phase flux t0f df) = 0
  · rw [if_pos hs]
  rw [if_neg hs]
  have hne_in : (flux_in_transit phase flux t0f df) ≠ [] := by
    intro h
    exact (not_or.mp h0).1 (by rw [h]; rfl)
  have hne_out : (flux_out_transit phase flux t0f df) ≠ [] := by
    intro h
    exact (not_or.mp h0).2 (by rw [h]; rfl)
  have hmean : ∀ l : List ℝ, l ≠ [] → (∀ x ∈ l, x = c) → meanR l = c := by
    intro l hne hl
    unfold meanR
    rw [List.sum_eq_card_nsmul l c hl, nsmul_eq_mul, mul_comm, mul_div_assoc, div_self
      (by exact_mod_cast Nat.cast_ne_zero.mpr fun h => hne (List.length_eq_zero.mp h)), mul_one]
  rw [hmean _ hne_out hout, hmean _ hne_in hin, sub_self, zero_mul, zero_div]
  exact max_self 0

/-! The BLS fold: monotonicity, membership and the first-best tie-break. -/

lemma blsCandidateAt_power (time flux : List ℝ) (g : GridPoint) :
    (blsCandidateAt time flux g).power = blsPowerAt time flux g := rfl

lemma blsCandidateAt_period (time flux : List ℝ) (g : GridPoint) :
    (blsCandidateAt time flux g).period = g.1 := rfl

lemma blsStep_power_le (time flux : List ℝ) (best : BLSCandidate) (g : GridPoint) :
    best.power ≤ (blsStep time flux best g).power := by
  unfold blsStep
  split_ifs with h
  · exact le_of_lt h
  · exact le_refl _

lemma blsFold_power_mono (time flux : List ℝ) (l : List GridPoint) (init : BLSCandidate) :
    init.power ≤ (l.foldl (blsStep time flux) init).power := by
  induction l generalizing init with
  | nil => exact le_refl _
  | cons a t ih =>
    exact le_trans (blsStep_power_le time flux init a) (ih (blsStep time flux init a))

lemma blsFold_le_power (time flux : List ℝ) (l : List GridPoint) (init : BLSCandidate)
    (g : GridPoint) (hg : g ∈ l) :
    blsPowerAt time flux g ≤ (l.foldl (blsStep time flux) init).power := by
  induction l generalizing init with
  | nil => cases hg
  | cons a t ih =>
    rw [List.foldl_cons]
    rcases List.mem_cons.mp hg with rfl | hgt
    · refine le_trans ?_ (blsFold_power_mono time flux t (blsStep time flux init g))
      unfold blsStep
      split_ifs with h
      · exact le_of_eq (blsCandidateAt_power time flux g).symm
      · exact not_lt.mp h
    · exact ih (blsStep time flux init a) hgt

lemma blsFold_result (time flux : List ℝ) (l : List GridPoint) (init : BLSCandidate) :
    l.foldl (blsStep time flux) init = init
    ∨ ∃ g ∈ l, l.foldl (blsStep time flux) init = blsCandidateAt time flux g
        ∧ init.power < blsPowerAt time flux g := by
  induction l generalizing init with
  | nil => exact Or.inl rfl
  | cons a t ih =>
    by_cases h : init.power < blsPowerAt time flux a
    · have hstep : blsStep time flux init a = blsCandidateAt time flux a := by
        unfold blsStep
        rw [if_pos h]
      rw [List.foldl_cons, hstep]
      rcases ih (blsCandidateAt time flux a) with h1 | ⟨g, hgt, heq, hlt⟩
      · exact Or.inr ⟨a, List.mem_cons_self a t, h1, h⟩
      · refine Or.inr ⟨g, List.mem_cons_of_mem a hgt, heq, lt_trans h ?_⟩
        rw [← blsCandidateAt_power time flux a]
        exact hlt
    · have hstep : blsStep time flux init a = init := by
        unfold blsStep
        rw [if_neg h]
      rw [List.foldl_cons, hstep]
      rcases ih init with h1 | ⟨g, hgt, heq, hlt⟩
      · exact Or.inl h1
      · exact Or.inr ⟨g, List.mem_cons_of_mem a hgt, heq, hlt⟩

/-- Along a period-sorted grid, every grid point either has period at least
the result's, or strictly smaller power than the result, or power not above
the initial best: the first strict improvement wins exact ties. -/
lemma blsFold_tiebreak (time flux : List ℝ) (l : List GridPoint)
    (hsort : l.Pairwise fun a b => a.1 ≤ b.1) (init : BLSCandidate)
    (g : GridPoint) (hg : g ∈ l) :
    (l.foldl (blsStep time flux) init).period ≤ g.1
    ∨ blsPowerAt time flux g < (l.foldl (blsStep time flux) init).power
    ∨ blsPowerAt time flux g ≤ init.power := by
  induction l generalizing init with
  | nil => cases hg
  | cons a t ih =>
    have hhead : ∀ b ∈ t, a.1 ≤ b.1 := (List.pairwise_cons.mp hsort).1
    have hsort_t : t.Pairwise fun x y => x.1 ≤ y.1 := (List.pairwise_cons.mp hsort).2
    by_cases hup : init.power < blsPowerAt time flux a
    · have hstep : blsStep time flux init a = blsCandidateAt time flux a := by
        unfold blsStep
        rw [if_pos hup]
      rw [List.foldl_cons, hstep]
      have hmono : blsPowerAt time flux a
          ≤ (t.foldl (blsStep time flux) (blsCandidateAt time flux a)).power := by
        rw [← blsCandidateAt_power time flux a]
        exact blsFold_power_mono time flux t (blsCandidateAt time flux a)
      have hfirst : blsPowerAt time flux a
            = (t.foldl (blsStep time flux) (blsCandidateAt time flux a)).power →
          (t.foldl (blsStep time flux) (blsCandidateAt time flux a)).period = a.1 := by
        intro heq2
        rcases blsFold_result time flux t (blsCandidateAt time flux a) with h1 | ⟨g2, _, heq3, hlt3⟩
        · rw [h1, blsCandidateAt_period]
        · exfalso
          rw [heq3, blsCandidateAt_power] at heq2
          rw [blsCandidateAt_power] at hlt3
          exact absurd heq2 (ne_of_lt hlt3)
      rcases List.mem_cons.mp hg with rfl | hgt
      · rcases lt_or_eq_of_le hmono with hlt | heq2
        · exact Or.inr (Or.inl hlt)
        · exact Or.inl (le_of_eq (hfirst heq2))
      · rcases ih hsort_t (blsCandidateAt time flux a) hgt with h1 | h2 | h3
        · exact Or.inl h1
        · exact Or.inr (Or.inl h2)
        · rw [blsCandidateAt_power] at h3
          rcases lt_or_eq_of_le (le_trans h3 hmono) with hlt | heq2
          · exact Or.inr (Or.inl hlt)
          · refine Or.inl ?_
            have ha : blsPowerAt time flux a
                = (t.foldl (blsStep time flux) (blsCandidateAt time flux a)).power :=
              le_antisymm hmono (by rw [← heq2]; exact h3)
            rw [hfirst ha]
            exact hhead g hgt
    · have hstep : blsStep time flux init a = init := by
        unfold blsStep
        rw [if_neg hup]
      rw [List.foldl_cons, hstep]
      rcases List.mem_cons.mp hg with rfl | hgt
      · exact Or.inr (Or.inr (not_lt.mp hup))
      · exact ih hsort_t init hgt

lemma blsFold_all_zero (time flux : List ℝ) (l : List GridPoint)
    (hz : ∀ g ∈ l, blsPowerAt time flux g = 0) :
    l.foldl (blsStep time flux) ⟨0, 0, 0, 0⟩ = ⟨0, 0, 0, 0⟩ := by
  induction l with
  | nil => rfl
  | cons a t ih =>
    rw [List.foldl_cons]
    have hstep : blsStep time flux ⟨0, 0, 0, 0⟩ a = ⟨0, 0, 0, 0⟩ := by
      unfold blsStep
      rw [if_neg]
      rw [hz a (List.mem_cons_self a t)]
      exact lt_irrefl 0
    rw [hstep]
    exact ih fun g hgt => hz g (List.mem_cons_of_mem a hgt)

/-! The period grid: positivity, lower bound, sortedness, membership. -/

lemma logb_step_nonneg : 0 ≤ (Real.logb 10 max_period - Real.logb 10 min_period) / 999 := by
  apply div_nonneg _ (by norm_num)
  rw [sub_nonneg]
  exact (Real.logb_le_logb (by norm_num) (by norm_num [min_period])
    (by norm_num [max_period])).mpr (by norm_num [min_period, max_period])

lemma periods_pos : ∀ P ∈ periods, 0 < P := by
  intro P hP
  obtain ⟨i, _, rfl⟩ := List.mem_map.mp hP
  exact Real.rpow_pos_of_pos (by norm_num) _

lemma periods_ge_min : ∀ P ∈ periods, min_period ≤ P := by
  intro P hP
  obtain ⟨i, _, rfl⟩ := List.mem_map.mp hP
  have h1 : min_period = (10 : ℝ) ^ Real.logb 10 min_period :=
    (Real.rpow_logb (by norm_num) (by norm_num) (by norm_num [min_period])).symm
  calc min_period = (10 : ℝ) ^ Real.logb 10 min_period := h1
    _ ≤ (10 : ℝ) ^ (Real.logb 10 min_period
          + (i : ℝ) * ((Real.logb 10 max_period - Real.logb 10 min_period) / 999)) := by
        refine Real.rpow_le_rpow_of_exponent_le (by norm_num) ?_
        have := mul_nonneg (Nat.cast_nonneg (α := ℝ) i) logb_step_nonneg
        linarith

lemma min_period_mem_periods : min_period ∈ periods := by
  unfold periods
  refine List.mem_map.mpr ⟨0, List.mem_range.mpr (by norm_num), ?_⟩
  push_cast
  rw [zero_mul, add_zero]
  exact Real.rpow_logb (by norm_num) (by norm_num) (by norm_num [min_period])

lemma periods_pairwise : periods.Pairwise (· ≤ ·) := by
  unfold periods
  rw [List.pairwise_map]
  refine (List.pairwise_lt_range 1000).imp ?_
  intro i j hij
  refine Real.rpow_le_rpow_of_exponent_le (by norm_num) ?_
  have h1 : (i : ℝ) ≤ (j : ℝ) := Nat.cast_le.mpr (le_of_lt hij)
  have h2 := logb_step_nonneg
  nlinarith

lemma blsGrid_inner_fst {P : ℝ} {x : GridPoint}
    (hx : x ∈ duration_fracs.flatMap fun d => t0_fracs.map fun t0f => ((P, d, t0f) : GridPoint)) :
    x.1 = P := by
  obtain ⟨d, hd, hx2⟩ := List.mem_flatMap.mp hx
  obtain ⟨t0, ht0, rfl⟩ := List.mem_map.mp hx2
  rfl

lemma mem_blsGrid_iff (g : GridPoint) :
    g ∈ blsGrid ↔ g.1 ∈ periods ∧ g.2.1 ∈ duration_fracs ∧ g.2.2 ∈ t0_fracs := by
  unfold blsGrid
  constructor
  · intro hg
    obtain ⟨P, hP, hg2⟩ := List.mem_flatMap.mp hg
    obtain ⟨d, hd, hg3⟩ := List.mem_flatMap.mp hg2
    obtain ⟨t0, ht0, rfl⟩ := List.mem_map.mp hg3
    exact ⟨hP, hd, ht0⟩
  · rintro ⟨h1, h2, h3⟩
    exact List.mem_flatMap.mpr ⟨g.1, h1,
      List.mem_flatMap.mpr ⟨g.2.1, h2, List.mem_map.mpr ⟨g.2.2, h3, rfl⟩⟩⟩

lemma blsGrid_pairwise : blsGrid.Pairwise fun a b => a.1 ≤ b.1 := by
  unfold blsGrid
  rw [List.pairwise_flatMap]
  constructor
  · intro P hP
    exact List.pairwise_of_forall_mem_list fun x hx y hy => by
      rw [blsGrid_inner_fst hx, blsGrid_inner_fst hy]
  · refine periods_pairwise.imp ?_
    intro P1 P2 h12 x hx y hy
    rw [blsGrid_inner_fst hx, blsGrid_inner_fst hy]
    exact h12

lemma g0_mem_blsGrid : g0 ∈ blsGrid := by
  refine (mem_blsGrid_iff g0).mpr ⟨?_, ?_, ?_⟩
  · have h : (g0 : GridPoint).1 = min_period := by norm_num [g0, min_period]
    rw [h]
    exact min_period_mem_periods
  · unfold duration_fracs
    refine List.mem_map.mpr ⟨0, List.mem_range.mpr (by norm_num), ?_⟩
    push_cast
    norm_num [g0]
  · unfold t0_fracs
    refine List.mem_map.mpr ⟨0, List.mem_range.mpr (by norm_num), ?_⟩
    push_cast
    norm_num [g0]

/-! Phase folding and square-root bound helpers. -/

lemma pymod_div_eq_fract (t P : ℝ) (hP : P ≠ 0) : pymod t P / P = Int.fract (t / P) := by
  unfold pymod
  rw [Int.fract, sub_div, mul_comm, mul_div_assoc, div_self hP, mul_one]

lemma pymodQ_cast (a b : ℚ) : ((pymodQ a b : ℚ) : ℝ) = pymod ((a : ℚ) : ℝ) ((b : ℚ) : ℝ) := by
  unfold pymodQ pymod
  have h1 : ((a : ℚ) : ℝ) / ((b : ℚ) : ℝ) = ((a / b : ℚ) : ℝ) := by
    push_cast
    ring
  rw [h1, Rat.floor_cast]
  push_cast
  ring

lemma phaseFold_cast (t : List ℚ) (P : ℚ) :
    phaseFold (t.map fun q : ℚ => (q : ℝ)) ((P : ℚ) : ℝ)
      = (t.map fun q : ℚ => pymodQ q P / P).map fun q : ℚ => (q : ℝ) := by
  unfold phaseFold
  rw [List.map_map, List.map_map]
  refine List.map_congr_left fun a ha => ?_
  simp only [Function.comp]
  rw [← pymodQ_cast]
  push_cast
  ring

/-- From `c^2 * v ≤ d^2 * r` with the right signs, bound the BLS power
expression `d * sqrt r / sqrt v` below by `c`. -/
lemma le_mul_sqrt_div_sqrt {c d r v : ℝ} (hc : 0 ≤ c) (hd : 0 ≤ d) (hr : 0 ≤ r)
    (hv : 0 < v) (h : c ^ 2 * v ≤ d ^ 2 * r) : c ≤ d * Real.sqrt r / Real.sqrt v := by
  rw [le_div_iff₀ (Real.sqrt_pos.mpr hv)]
  have h1 : c * Real.sqrt v = Real.sqrt (c ^ 2 * v) := by
    rw [Real.sqrt_mul (sq_nonneg c), Real.sqrt_sq hc]
  have h2 : d * Real.sqrt r = Real.sqrt (d ^ 2 * r) := by
    rw [Real.sqrt_mul (sq_nonneg d), Real.sqrt_sq hd]
  rw [h1, h2]
  exact Real.sqrt_le_sqrt h

/-! C2: the BLS power formula. -/

/-- C2: for every phase array, flux array, phase offset and duration
fraction, the BLS power is 0 when fewer than 3 points are in transit and
otherwise `max 0 ((mean(flux_out) - mean(flux_in)) * sqrt(n_in * n_out /
(n_in + n_out)) / std(flux_out))`; in particular it is always nonnegative.
(The source's two extra guards return 0 exactly where this formula is 0
under the conventions `sqrt 0 = 0` and `x / 0 = 0`: with `n_out = 0` the
sqrt factor is 0, and with `std(flux_out) = 0` the quotient is 0.) -/
theorem C2_bls_power_formula (phase flux : List ℝ) (t0_frac duration_frac : ℝ) :
    (_calculate_bls_power phase flux t0_frac duration_frac =
      if (flux_in_transit phase flux t0_frac duration_frac).length < 3 then 0
      else
        max 0 ((meanR (flux_out_transit phase flux t0_frac duration_frac)
                - meanR (flux_in_transit phase flux t0_frac duration_frac))
          * Real.sqrt (((flux_in_transit phase flux t0_frac duration_frac).length : ℝ)
              * ((flux_out_transit phase flux t0_frac duration_frac).length : ℝ)
              / (((flux_in_transit phase flux t0_frac duration_frac).length : ℝ)
                 + ((flux_out_transit phase flux t0_frac duration_frac).length : ℝ)))
          / stdR (flux_out_transit phase flux t0_frac duration_frac)))
    ∧ 0 ≤ _calculate_bls_power phase flux t0_frac duration_frac := by
  constructor
  · unfold _calculate_bls_power
    by_cases h3 : (flux_in_transit phase flux t0_frac duration_frac).length < 3
    · rw [if_pos h3, if_pos h3]
    rw [if_neg h3, if_neg h3]
    by_cases h0 : (flux_in_transit phase flux t0_frac duration_frac).length = 0
        ∨ (flux_out_transit phase flux t0_frac duration_frac).length = 0
    · rw [if_pos h0]
      have hout : (flux_out_transit phase flux t0_frac duration_frac).length = 0 := by
        rcases h0 with h | h
        · omega
        · exact h
      rw [hout]
      rw [Nat.cast_zero, mul_zero, zero_div, Real.sqrt_zero, mul_zero, zero_div, max_self]
    rw [if_neg h0]
    by_cases hs : stdR (flux_out_transit phase flux t0_frac duration_frac) = 0
    · rw [if_pos hs, hs, div_zero, max_self]
    rw [if_neg hs]
  · unfold _calculate_bls_power
    split_ifs
    · exact le_refl 0
    · exact le_refl 0
    · exact le_refl 0
    · exact le_max_left 0 _

/-! C8: folded phases lie in [0, 1). -/

/-- C8: for every time series and every period of the search grid, every
folded phase value `(t mod P) / P` lies in the half-open interval [0, 1). -/
theorem C8_phase_in_unit_interval (time : List ℝ) (P : ℝ) (hP : P ∈ periods) :
    ∀ ph ∈ phaseFold time P, 0 ≤ ph ∧ ph < 1 := by
  intro ph hph
  obtain ⟨t, _, rfl⟩ := List.mem_map.mp hph
  rw [pymod_div_eq_fract t P (ne_of_gt (periods_pos P hP))]
  exact ⟨Int.fract_nonneg _, Int.fract_lt_one _⟩

/-- C8 witness: the folded phase of time 3 at the first grid period. -/
theorem C8_phase_in_unit_interval_witness :
    0 ≤ pymod 3 min_period / min_period ∧ pymod 3 min_period / min_period < 1 :=
  C8_phase_in_unit_interval [3] min_period min_period_mem_periods
    (pymod 3 min_period / min_period)
    (List.mem_map.mpr ⟨3, List.mem_singleton.mpr rfl, rfl⟩)

/-! The dip series: its BLS power at the grid point `g0` clears the
detection threshold. -/

lemma powerAt_g0_ge_threshold :
    detection_threshold ≤ blsPowerAt (timesC9Q.map fun q : ℚ => (q : ℝ))
      (fluxC9Q.map fun q : ℚ => (q : ℝ)) g0 := by
  unfold blsPowerAt
  have hg1 : (g0 : GridPoint).1 = ((1/2 : ℚ) : ℝ) := by norm_num [g0]
  have hg2 : (g0 : GridPoint).2.1 = ((1/100 : ℚ) : ℝ) := by norm_num [g0]
  have hg3 : (g0 : GridPoint).2.2 = ((0 : ℚ) : ℝ) := by norm_num [g0]
  rw [hg1, hg2, hg3, phaseFold_cast]
  have h3 : ¬ (flux_in_transitQ (timesC9Q.map fun t : ℚ => pymodQ t (1/2) / (1/2))
      fluxC9Q 0 (1/100)).length < 3 := by
    with_unfolding_all decide
  have h0 : ¬ ((flux_in_transitQ (timesC9Q.map fun t : ℚ => pymodQ t (1/2) / (1/2))
        fluxC9Q 0 (1/100)).length = 0
      ∨ (flux_out_transitQ (timesC9Q.map fun t : ℚ => pymodQ t (1/2) / (1/2))
        fluxC9Q 0 (1/100)).length = 0) := by
    with_unfolding_all decide
  have hvpos : 0 < varQ (flux_out_transitQ (timesC9Q.map fun t : ℚ => pymodQ t (1/2) / (1/2))
      fluxC9Q 0 (1/100)) := by
    with_unfolding_all decide
  rw [bls_power_of_pieces _ _ _ _ h3 h0 (ne_of_gt hvpos)]
  have hlen_in : (flux_in_transitQ (timesC9Q.map fun t : ℚ => pymodQ t (1/2) / (1/2))
      fluxC9Q 0 (1/100)).length = 9 := by
    with_unfolding_all decide
  have hlen_out : (flux_out_transitQ (timesC9Q.map fun t : ℚ => pymodQ t (1/2) / (1/2))
      fluxC9Q 0 (1/100)).length = 41 := by
    with_unfolding_all decide
  have hdiff : (0 : ℚ) ≤ meanQ (flux_out_transitQ (timesC9Q.map fun t : ℚ => pymodQ t (1/2) / (1/2))
        fluxC9Q 0 (1/100))
      - meanQ (flux_in_transitQ (timesC9Q.map fun t : ℚ => pymodQ t (1/2) / (1/2))
        fluxC9Q 0 (1/100)) := by
    with_unfolding_all decide
  have hmain : (49 : ℚ) * varQ (flux_out_transitQ (timesC9Q.map fun t : ℚ => pymodQ t (1/2) / (1/2))
        fluxC9Q 0 (1/100))
      ≤ (meanQ (flux_out_transitQ (timesC9Q.map fun t : ℚ => pymodQ t (1/2) / (1/2))
            fluxC9Q 0 (1/100))
          - meanQ (flux_in_transitQ (timesC9Q.map fun t : ℚ => pymodQ t (1/2) / (1/2))
            fluxC9Q 0 (1/100))) ^ 2 * (369 / 50) := by
    with_unfolding_all decide
  rw [hlen_in, hlen_out]
  unfold detection_threshold
  refine le_trans ?_ (le_max_right 0 _)
  rw [show ((meanQ (flux_out_transitQ (timesC9Q.map fun t : ℚ => pymodQ t (1/2) / (1/2))
        fluxC9Q 0 (1/100)) : ℚ) : ℝ)
      - ((meanQ (flux_in_transitQ (timesC9Q.map fun t : ℚ => pymodQ t (1/2) / (1/2))
        fluxC9Q 0 (1/100)) : ℚ) : ℝ)
      = ((meanQ (flux_out_transitQ (timesC9Q.map fun t : ℚ => pymodQ t (1/2) / (1/2))
            fluxC9Q 0 (1/100))
          - meanQ (flux_in_transitQ (timesC9Q.map fun t : ℚ => pymodQ t (1/2) / (1/2))
            fluxC9Q 0 (1/100)) : ℚ) : ℝ) by push_cast; ring]
  refine le_mul_sqrt_div_sqrt (by norm_num) (by exact_mod_cast hdiff) (by positivity)
    (by exact_mod_cast hvpos) ?_
  have hcast := (Rat.cast_le (K := ℝ)).mpr hmain
  push_cast at hcast
  push_cast
  nlinarith [hcast]

/-! C7: what the BLS search returns. -/

/-- C7 (amended): every grid combination's power is bounded by the returned
power; and whenever some grid combination has positive power, the search
returns a grid point achieving the maximal power whose period is at most
the period of every maximizing grid point (the smaller period wins exact
ties, the traversal being period-ascending with strict-improvement
updates).  When every combination has power 0 the search instead returns
the non-grid fallback candidate — see the counterexample. -/
theorem C7_best_gridpoint_and_tiebreak (time flux : List ℝ) :
    (∀ g ∈ blsGrid, blsPowerAt time flux g ≤ (box_least_squares time flux).power)
    ∧ ∀ g ∈ blsGrid, 0 < blsPowerAt time flux g →
        (∃ gb ∈ blsGrid, box_least_squares time flux = blsCandidateAt time flux gb
          ∧ blsPowerAt time flux gb = (box_least_squares time flux).power)
        ∧ ∀ g2 ∈ blsGrid, blsPowerAt time flux g2 = (box_least_squares time flux).power →
            (box_least_squares time flux).period ≤ g2.1 := by
  simp only [box_least_squares]
  constructor
  · intro g hg
    exact blsFold_le_power time flux blsGrid ⟨0, 0, 0, 0⟩ g hg
  · intro g hg hpos
    have hle := blsFold_le_power time flux blsGrid ⟨0, 0, 0, 0⟩ g hg
    have hrespos : 0 < (blsGrid.foldl (blsStep time flux) ⟨0, 0, 0, 0⟩).power :=
      lt_of_lt_of_le hpos hle
    constructor
    · rcases blsFold_result time flux blsGrid ⟨0, 0, 0, 0⟩ with h1 | ⟨gb, hgb, heq, _⟩
      · rw [h1] at hrespos
        exact absurd hrespos (lt_irrefl 0)
      · exact ⟨gb, hgb, heq, by rw [heq, blsCandidateAt_power]⟩
    · intro g2 hg2 hpow2
      rcases blsFold_tiebreak time flux blsGrid blsGrid_pairwise ⟨0, 0, 0, 0⟩ g2 hg2
        with h1 | h2 | h3
      · exact h1
      · exact absurd hpow2 (ne_of_lt h2)
      · rw [hpow2] at h3
        exact absurd hrespos (not_lt.mpr h3)

/-- C7 counterexample: on a constant flux series every grid combination has
power 0 (the out-of-transit standard deviation vanishes), the search
returns the all-zero fallback, and its period 0 is not in the period grid:
the returned candidate is not a grid point, contradicting the claim that
the search always returns the best grid point. -/
theorem C7_cex_returns_non_gridpoint :
    box_least_squares ((List.range 5).map fun i : ℕ => ((i : ℚ) : ℝ)) (List.replicate 5 1)
      = ⟨0, 0, 0, 0⟩
    ∧ (box_least_squares ((List.range 5).map fun i : ℕ => ((i : ℚ) : ℝ))
        (List.replicate 5 1)).period ∉ periods := by
  have h1 : box_least_squares ((List.range 5).map fun i : ℕ => ((i : ℚ) : ℝ))
      (List.replicate 5 1) = ⟨0, 0, 0, 0⟩ := by
    unfold box_least_squares
    refine blsFold_all_zero _ _ _ fun g hg => ?_
    unfold blsPowerAt
    exact bls_power_of_const (fun x hx => List.eq_of_mem_replicate hx) _ _ _
  refine ⟨h1, ?_⟩
  rw [h1]
  intro hmem
  exact absurd (periods_ge_min _ hmem) (by norm_num [min_period])

/-- C7 witness: on the dip series the grid point `g0` has positive power,
so the returned candidate is a maximizing grid point with minimal period
among the maximizers. -/
theorem C7_witness :
    (∃ gb ∈ blsGrid, box_least_squares (timesC9Q.map fun q : ℚ => (q : ℝ))
        (fluxC9Q.map fun q : ℚ => (q : ℝ))
      = blsCandidateAt (timesC9Q.map fun q : ℚ => (q : ℝ)) (fluxC9Q.map fun q : ℚ => (q : ℝ)) gb
      ∧ blsPowerAt (timesC9Q.map fun q : ℚ => (q : ℝ)) (fluxC9Q.map fun q : ℚ => (q : ℝ)) gb
        = (box_least_squares (timesC9Q.map fun q : ℚ => (q : ℝ))
            (fluxC9Q.map fun q : ℚ => (q : ℝ))).power)
    ∧ ∀ g2 ∈ blsGrid, blsPowerAt (timesC9Q.map fun q : ℚ => (q : ℝ))
          (fluxC9Q.map fun q : ℚ => (q : ℝ)) g2
        = (box_least_squares (timesC9Q.map fun q : ℚ => (q : ℝ))
            (fluxC9Q.map fun q : ℚ => (q : ℝ))).power →
        (box_least_squares (timesC9Q.map fun q : ℚ => (q : ℝ))
          (fluxC9Q.map fun q : ℚ => (q : ℝ))).period ≤ g2.1 :=
  (C7_best_gridpoint_and_tiebreak (timesC9Q.map fun q : ℚ => (q : ℝ))
      (fluxC9Q.map fun q : ℚ => (q : ℝ))).2 g0 g0_mem_blsGrid
    (lt_of_lt_of_le (by norm_num [detection_threshold]) powerAt_g0_ge_threshold)

/-! C10: the all-zero-power fallback. -/

/-- C10: if every grid combination yields BLS power 0, the search returns
the fallback candidate with period 0, power 0, t0 0 and duration 0; that
period lies outside the period grid; and the pipeline then rejects with
confidence 15.0 and reports best_period = 0 (round(0, 3) = 0). -/
theorem C10_all_zero_fallback (raw : List RawRow) (opt : Option FitParams)
    (h1 : 100 ≤ raw.length) (h2 : 50 ≤ (cleanedOf raw).1.length)
    (hz : ∀ g ∈ blsGrid, blsPowerAt (blsInputT raw) (blsInputF raw) g = 0) :
    blsOf raw = ⟨0, 0, 0, 0⟩
    ∧ (blsOf raw).period ∉ periods
    ∧ analyze_lightcurve raw opt
        = .rejectedNoSignal 15 0 0 "No significant periodic signal detected" := by
  have hbls : blsOf raw = ⟨0, 0, 0, 0⟩ := by
    unfold blsOf box_least_squares
    exact blsFold_all_zero _ _ _ hz
  refine ⟨hbls, ?_, ?_⟩
  · rw [hbls]
    intro hmem
    exact absurd (periods_ge_min _ hmem) (by norm_num [min_period])
  · unfold analyze_lightcurve analyzeWith
    rw [if_neg (not_lt.mpr h1), if_neg (not_lt.mpr h2)]
    have hcall : box_least_squares (blsInputT raw) (blsInputF raw) = blsOf raw := rfl
    rw [hcall, hbls]
    rw [if_pos (by norm_num [detection_threshold] :
      (BLSCandidate.mk 0 0 0 0).power < detection_threshold)]
    have hr2 : roundTo 2 (BLSCandidate.mk 0 0 0 0).power = 0 := by
      simp [roundTo]
    have hr3 : roundTo 3 (BLSCandidate.mk 0 0 0 0).period = 0 := by
      simp [roundTo]
    rw [hr2, hr3]

/-- C10 witness: 101 parsed rows whose cleaned flux is constant — the sigma
clip removes the single outlier — so every grid power is 0 and the pipeline
rejects with confidence 15 and best_period 0. -/
theorem C10_witness :
    blsOf rawC10 = ⟨0, 0, 0, 0⟩
    ∧ (blsOf rawC10).period ∉ periods
    ∧ analyze_lightcurve rawC10 none
        = .rejectedNoSignal 15 0 0 "No significant periodic signal detected" :=
  C10_all_zero_fallback rawC10 none (by with_unfolding_all decide)
    (by with_unfolding_all decide)
    (fun g hg => by
      unfold blsPowerAt
      refine bls_power_of_const (c := (1 : ℝ)) ?_ _ _ _
      intro x hx
      unfold blsInputF at hx
      rw [show (cleanedOf rawC10).2 = List.replicate 100 1 by with_unfolding_all decide] at hx
      obtain ⟨q, hq, rfl⟩ := List.mem_map.mp hx
      rw [List.eq_of_mem_replicate hq]
      norm_num)

/-! C1: the two-stage detection gate. -/

/-- C1: on inputs that pass both size checks, planet_detected holds iff the
BLS power reaches the detection threshold (7.0), the fit returns, and the
significance stage's (rounded) snr exceeds 5.0 and confidence exceeds 70;
when the BLS gate fails the result is the rejection with confidence fixed
at 15.0 and the 'No significant periodic signal detected' message; when the
gate passes but the fit fails the result is the rejection with confidence
fixed at 25.0. -/
theorem C1_detection_gates (raw : List RawRow) (opt : Option FitParams)
    (h1 : 100 ≤ raw.length) (h2 : 50 ≤ (cleanedOf raw).1.length) :
    ((analyze_lightcurve raw opt).detected ↔
      (detection_threshold ≤ (blsOf raw).power
        ∧ ∃ tf, fitOf raw opt = some tf
            ∧ 5 < (sigOf raw tf).snr ∧ 70 < (sigOf raw tf).confidence_percent))
    ∧ ((blsOf raw).power < detection_threshold →
        analyze_lightcurve raw opt = .rejectedNoSignal 15 (roundTo 2 (blsOf raw).power)
          (roundTo 3 (blsOf raw).period) "No significant periodic signal detected")
    ∧ (detection_threshold ≤ (blsOf raw).power → fitOf raw opt = none →
        analyze_lightcurve raw opt = .rejectedFitFailed 25 "Transit model fitting failed") := by
  unfold analyze_lightcurve analyzeWith
  rw [if_neg (not_lt.mpr h1), if_neg (not_lt.mpr h2)]
  have hcall : box_least_squares (blsInputT raw) (blsInputF raw) = blsOf raw := rfl
  rw [hcall]
  by_cases hb : (blsOf raw).power < detection_threshold
  · rw [if_pos hb]
    refine ⟨?_, fun _ => rfl, fun hb2 _ => absurd hb (not_lt.mpr hb2)⟩
    simp only [DetectionResult.detected]
    constructor
    · intro h
      exact h.elim
    · rintro ⟨hge, _⟩
      exact absurd hb (not_lt.mpr hge)
  · rw [if_neg hb]
    have hfit : fitWith raw (blsOf raw) opt = fitOf raw opt := rfl
    rw [hfit]
    cases hf : fitOf raw opt with
    | none =>
      refine ⟨?_, fun hlt => absurd hlt hb, fun _ _ => rfl⟩
      simp only [DetectionResult.detected]
      constructor
      · intro h
        exact h.elim
      · rintro ⟨_, tf, htf, _⟩
        cases htf
    | some tf =>
      refine ⟨?_, fun hlt => absurd hlt hb, fun _ hnone => by cases hnone⟩
      simp only [DetectionResult.detected]
      unfold detectedGate
      constructor
      · intro hdet
        exact ⟨not_lt.mp hb, tf, rfl, hdet.1, hdet.2⟩
      · rintro ⟨_, tf2, htf2, hsnr, hconf⟩
        cases htf2
        exact ⟨hsnr, hconf⟩

/-- C1 witness: the dip-series input passes both size checks (101 raw rows,
50 cleaned points), so the gate equivalences hold there with the optimizer
outcome abstracted as a failure. -/
theorem C1_witness :
    ((analyze_lightcurve rawC9 none).detected ↔
      (detection_threshold ≤ (blsOf rawC9).power
        ∧ ∃ tf, fitOf rawC9 none = some tf
            ∧ 5 < (sigOf rawC9 tf).snr ∧ 70 < (sigOf rawC9 tf).confidence_percent))
    ∧ ((blsOf rawC9).power < detection_threshold →
        analyze_lightcurve rawC9 none = .rejectedNoSignal 15 (roundTo 2 (blsOf rawC9).power)
          (roundTo 3 (blsOf rawC9).period) "No significant periodic signal detected")
    ∧ (detection_threshold ≤ (blsOf rawC9).power → fitOf rawC9 none = none →
        analyze_lightcurve rawC9 none = .rejectedFitFailed 25 "Transit model fitting failed") :=
  C1_detection_gates rawC9 none (by with_unfolding_all decide) (by with_unfolding_all decide)

/-! C6: the post-preprocessing size floor. -/

/-- C6 (amended): with at least 100 parsed rows but fewer than 50 cleaned
points, the pipeline returns the error object with the message 'Too few
valid data points after preprocessing' — and it does so for every BLS
implementation, so the BLS search stage is never invoked. -/
theorem C6_cleaned_floor_error (bls : List ℝ → List ℝ → BLSCandidate)
    (raw : List RawRow) (opt : Option FitParams)
    (h1 : 100 ≤ raw.length) (h2 : (cleanedOf raw).1.length < 50) :
    analyzeWith bls raw opt = .error "Too few valid data points after preprocessing" := by
  unfold analyzeWith
  rw [if_neg (not_lt.mpr h1), if_pos h2]

/-- C6 counterexample: a 100-row input with 30 cleaned points yields the
error message 'Too few valid data points after preprocessing' — not the
'Insufficient data points...' message the claim quotes, which the source
only emits from the pre-parse 100-row check. -/
theorem C6_cex_message :
    analyze_lightcurve rawC6 none = .error "Too few valid data points after preprocessing"
    ∧ "Too few valid data points after preprocessing"
        ≠ "Insufficient data points. Need at least 100 measurements." := by
  constructor
  · unfold analyze_lightcurve analyzeWith
    rw [if_neg (not_lt.mpr (by with_unfolding_all decide : (100 : ℕ) ≤ rawC6.length))]
    rw [if_pos (by with_unfolding_all decide : (cleanedOf rawC6).1.length < 50)]
  · decide

/-- C6 witness: the same 30-cleaned-point input under a dummy BLS
implementation reporting power 99 still returns the error — the BLS result
cannot matter, it is never computed. -/
theorem C6_witness :
    analyzeWith (fun _ _ => ⟨1, 99, 0, 1⟩) rawC6 none
      = .error "Too few valid data points after preprocessing" :=
  C6_cleaned_floor_error (fun _ _ => ⟨1, 99, 0, 1⟩) rawC6 none
    (by with_unfolding_all decide) (by with_unfolding_all decide)

/-! C9: planet properties and the invocation of the calculator. -/

/-- C9 (amended): the planet_properties field of the result is an object
exactly when planet_detected holds, and a detected result implies the
property calculator was invoked; but the calculator is invoked whenever the
BLS gate passes and the fit returns — before the significance gate — so
invocation does not imply acceptance (see the counterexample). -/
theorem C9_props_iff_detected (raw : List RawRow) (opt : Option FitParams) :
    ((analyze_lightcurve raw opt).planetProperties ≠ none ↔ (analyze_lightcurve raw opt).detected)
    ∧ ((analyze_lightcurve raw opt).detected → props_invoked raw opt) := by
  unfold analyze_lightcurve analyzeWith
  by_cases hA : raw.length < 100
  · rw [if_pos hA]
    simp [DetectionResult.planetProperties, DetectionResult.detected]
  rw [if_neg hA]
  by_cases hB : (cleanedOf raw).1.length < 50
  · rw [if_pos hB]
    simp [DetectionResult.planetProperties, DetectionResult.detected]
  rw [if_neg hB]
  have hcall : box_least_squares (blsInputT raw) (blsInputF raw) = blsOf raw := rfl
  rw [hcall]
  by_cases hC : (blsOf raw).power < detection_threshold
  · rw [if_pos hC]
    simp [DetectionResult.planetProperties, DetectionResult.detected]
  rw [if_neg hC]
  have hfit : fitWith raw (blsOf raw) opt = fitOf raw opt := rfl
  rw [hfit]
  cases hf : fitOf raw opt with
  | none =>
    simp [DetectionResult.planetProperties, DetectionResult.detected]
  | some tf =>
    simp only [DetectionResult.planetProperties, DetectionResult.detected]
    constructor
    · by_cases hd : detectedGate (sigOf raw tf)
      · rw [if_pos hd]
        simp [hd]
      · rw [if_neg hd]
        simp [hd]
    · intro hdet
      unfold props_invoked
      refine ⟨not_lt.mp hA, not_lt.mp hB, not_lt.mp hC, ?_⟩
      rw [hf]
      rfl

/-- C9 witness: the equivalence applied to the dip-series input and the
degenerate fitted parameters. -/
theorem C9_witness :
    ((analyze_lightcurve rawC9 (some paramsC9)).planetProperties ≠ none
      ↔ (analyze_lightcurve rawC9 (some paramsC9)).detected)
    ∧ ((analyze_lightcurve rawC9 (some paramsC9)).detected
        → props_invoked rawC9 (some paramsC9)) :=
  C9_props_iff_detected rawC9 (some paramsC9)

lemma analyze_detected_of_completed (raw : List RawRow) (opt : Option FitParams)
    (h1 : ¬ raw.length < 100) (h2 : ¬ (cleanedOf raw).1.length < 50)
    (h3 : ¬ (blsOf raw).power < detection_threshold) {tf : TransitFit}
    (hf : fitOf raw opt = some tf) :
    ((analyze_lightcurve raw opt).detected ↔ detectedGate (sigOf raw tf)) := by
  unfold analyze_lightcurve analyzeWith
  rw [if_neg h1, if_neg h2]
  have hcall : box_least_squares (blsInputT raw) (blsInputF raw) = blsOf raw := rfl
  rw [hcall, if_neg h3]
  have hfit : fitWith raw (blsOf raw) opt = fitOf raw opt := rfl
  rw [hfit, hf]
  simp [DetectionResult.detected]

/-- C9 counterexample: on the dip series with the degenerate depth-0 fitted
parameters, both input checks pass, the BLS gate passes and the fit
returns, so the run reaches the planet-property call of line 294
(`props_invoked`); yet the box model of depth 0 is identically 1, its
signal depth is 0, the rounded snr is 0, and the significance gate rejects:
planet_detected is false.  The calculator is therefore invoked on runs the
evaluator does not accept, refuting "invoked only when the significance
evaluator accepts". -/
theorem C9_cex_invoked_without_detection :
    props_invoked rawC9 (some paramsC9)
    ∧ ¬ (analyze_lightcurve rawC9 (some paramsC9)).detected := by
  have hclean : cleanedOf rawC9 = (timesC9Q, fluxC9Q) := by with_unfolding_all decide
  have hclean1 : (cleanedOf rawC9).1 = timesC9Q := by rw [hclean]
  have hclean2 : (cleanedOf rawC9).2 = fluxC9Q := by rw [hclean]
  have h1 : 100 ≤ rawC9.length := by with_unfolding_all decide
  have h2 : 50 ≤ (cleanedOf rawC9).1.length := by
    rw [hclean1]
    with_unfolding_all decide
  have hinT : blsInputT rawC9 = timesC9Q.map fun q : ℚ => (q : ℝ) := by
    unfold blsInputT
    rw [hclean1]
  have hinF : blsInputF rawC9 = fluxC9Q.map fun q : ℚ => (q : ℝ) := by
    unfold blsInputF
    rw [hclean2]
  have hpow : detection_threshold ≤ (blsOf rawC9).power := by
    unfold blsOf box_least_squares
    rw [hinT, hinF]
    exact le_trans powerAt_g0_ge_threshold
      (blsFold_le_power _ _ blsGrid ⟨0, 0, 0, 0⟩ g0 g0_mem_blsGrid)
  have hfit_val : fitOf rawC9 (some paramsC9)
      = some ⟨paramsC9.depth, paramsC9.period, paramsC9.t0, paramsC9.duration,
          (((cleanedOf rawC9).2.zip (transit_model (cleanedOf rawC9).1 paramsC9)).map
            fun q => (q.1 - q.2) ^ 2).sum,
          ((((cleanedOf rawC9).2.zip (transit_model (cleanedOf rawC9).1 paramsC9)).map
            fun q => (q.1 - q.2) ^ 2).sum) / (((cleanedOf rawC9).2.length : ℚ) - 4),
          transit_model (cleanedOf rawC9).1 paramsC9⟩ := rfl
  have hmodel : transit_model timesC9Q paramsC9 = List.replicate 50 1 := by
    with_unfolding_all decide
  constructor
  · exact ⟨h1, h2, hpow, by rw [hfit_val]; rfl⟩
  · rw [analyze_detected_of_completed rawC9 (some paramsC9) (not_lt.mpr h1) (not_lt.mpr h2)
      (not_lt.mpr hpow) hfit_val]
    unfold detectedGate sigOf calculate_detection_significance
    intro hdet
    have h51 := hdet.1
    simp only [hclean1, hclean2, hmodel] at h51
    have hmax : maxQ (List.replicate 50 (1 : ℚ)) = 1 := by with_unfolding_all decide
    have hmin : minQ (List.replicate 50 (1 : ℚ)) = 1 := by with_unfolding_all decide
    rw [hmax, hmin] at h51
    norm_num [roundTo] at h51

/-! C3: reduced chi-squared and the absent degrees-of-freedom check. -/

/-- C3 (amended): the fit returns exactly when the abstracted optimizer
returns (the source has no check on the number of points), and every
returned fit has `chi2 = Σ residual²` and `reduced_chi2 = chi2 / (N - 4)`
as a field division — so `N = 4` divides by zero (numpy: inf with a
warning, no exception) and `N < 4` gives a negative denominator, and no
fit-failure signal is produced for `N ≤ 4`. -/
theorem C3_reduced_chi2_formula (time flux : List ℚ) (period t0 duration : ℝ)
    (opt : Option FitParams) :
    (fit_transit_model time flux period t0 duration opt).isSome = opt.isSome
    ∧ ∀ tf : TransitFit, fit_transit_model time flux period t0 duration opt = some tf →
        tf.chi2 = ((flux.zip tf.model_flux).map fun q => (q.1 - q.2) ^ 2).sum
        ∧ tf.reduced_chi2 = tf.chi2 / ((flux.length : ℚ) - 4) := by
  constructor
  · cases opt with
    | none => rfl
    | some p => rfl
  · intro tf htf
    cases opt with
    | none => cases htf
    | some p =>
      cases Option.some.inj htf
      exact ⟨rfl, rfl⟩

/-- C3 witness: the formula conjunction applied at the 4-point series. -/
theorem C3_witness :
    (fit_transit_model timesC3 fluxC3 1 0 (1/10) (some paramsC3)).isSome
        = (some paramsC3).isSome
    ∧ ∀ tf : TransitFit, fit_transit_model timesC3 fluxC3 1 0 (1/10) (some paramsC3) = some tf →
        tf.chi2 = ((fluxC3.zip tf.model_flux).map fun q => (q.1 - q.2) ^ 2).sum
        ∧ tf.reduced_chi2 = tf.chi2 / ((fluxC3.length : ℚ) - 4) :=
  C3_reduced_chi2_formula timesC3 fluxC3 1 0 (1/10) (some paramsC3)

/-- C3 counterexample: fitting a series of N = 4 points with a returned
optimizer vector yields a successful fit dictionary, not a NumericalError
fit-failure signal; the source computes `chi2 / (4 - 4)` (inf in numpy,
junk 0 in this embedding) instead of failing. -/
theorem C3_cex_four_points_no_failure :
    fluxC3.length = 4
    ∧ (fit_transit_model timesC3 fluxC3 1 0 (1/10) (some paramsC3)).isSome = true := by
  constructor
  · rfl
  · rfl

/-! C4: the significance evaluator and the absent zero-noise check. -/

/-- C4 (amended): the evaluator's snr is `round((max(model) - min(model)) /
std(flux - model), 2)`; the spec-modelled evaluator (which fails when the
residual standard deviation is 0) agrees with the source's evaluator
exactly when the residual variance is nonzero — the source itself never
fails, it divides by zero (see the counterexample). -/
theorem C4_snr_formula_and_spec_divergence (time flux model : List ℚ) :
    (calculate_detection_significance time flux model).snr
      = roundTo 2 ((((maxQ model : ℚ) : ℝ) - ((minQ model : ℚ) : ℝ))
          / stdQ (residualsQ flux model))
    ∧ (significance_spec time flux model
        = some (calculate_detection_significance time flux model)
        ↔ varQ (residualsQ flux model) ≠ 0) := by
  constructor
  · rfl
  · unfold significance_spec
    by_cases hv : varQ (residualsQ flux model) = 0
    · rw [if_pos hv]
      simp [hv]
    · rw [if_neg hv]
      simp [hv]

/-- C4 witness: the formula applied at a 2-point series with nonzero
residual variance. -/
theorem C4_witness :
    (calculate_detection_significance [0, 1] [1, 2] [1, 1]).snr
      = roundTo 2 ((((maxQ [1, 1] : ℚ) : ℝ) - ((minQ [1, 1] : ℚ) : ℝ))
          / stdQ (residualsQ [1, 2] [1, 1]))
    ∧ (significance_spec [0, 1] [1, 2] [1, 1]
        = some (calculate_detection_significance [0, 1] [1, 2] [1, 1])
        ↔ varQ (residualsQ [1, 2] [1, 1]) ≠ 0) :=
  C4_snr_formula_and_spec_divergence [0, 1] [1, 2] [1, 1]

/-- C4 counterexample: with flux equal to the model the residual variance
is 0 — the spec-modelled evaluator fails — yet the source's evaluator is a
total function: its snr field is `round(signal_depth / 0, 2)`, the division
by zero the claim says cannot be reached (numpy produces inf with a
warning; in this embedding the quotient is the junk value 0).  No
NumericalError exists in the source. -/
theorem C4_cex_zero_noise_no_failure :
    varQ (residualsQ fluxC4 modelC4) = 0
    ∧ significance_spec timesC4 fluxC4 modelC4 = none
    ∧ (calculate_detection_significance timesC4 fluxC4 modelC4).snr
        = roundTo 2 ((((maxQ modelC4 : ℚ) : ℝ) - ((minQ modelC4 : ℚ) : ℝ)) / 0) := by
  have hv : varQ (residualsQ fluxC4 modelC4) = 0 := by with_unfolding_all decide
  refine ⟨hv, ?_, ?_⟩
  · unfold significance_spec
    rw [if_pos hv]
  · unfold calculate_detection_significance
    rw [show stdQ (residualsQ fluxC4 modelC4) = 0 from by
      rw [stdQ_eq_zero_iff]
      exact hv]

/-! C5: what re-running the preprocessor preserves and what it does not. -/

lemma preprocess_length_eq (time flux : List RawV) :
    (preprocess_lightcurve time flux).1.length = (preprocess_lightcurve time flux).2.length := by
  unfold preprocess_lightcurve
  rw [List.length_map, List.length_map]

lemma preprocess_fst_pairwise (time flux : List RawV) :
    (preprocess_lightcurve time flux).1.Pairwise (· ≤ ·) := by
  have hsorted : (preprocess_sorted time flux).Pairwise fun a b : ℚ × ℚ => a.1 ≤ b.1 := by
    unfold preprocess_sorted
    haveI : IsTotal (ℚ × ℚ) fun x y : ℚ × ℚ => x.1 ≤ y.1 := ⟨fun a b => le_total a.1 b.1⟩
    haveI : IsTrans (ℚ × ℚ) fun x y : ℚ × ℚ => x.1 ≤ y.1 :=
      ⟨fun a b c h1 h2 => le_trans h1 h2⟩
    exact List.sorted_insertionSort (fun x y : ℚ × ℚ => x.1 ≤ y.1) (preprocess_points time flux)
  have hnorm : (preprocess_norm time flux).Pairwise fun a b : ℚ × ℚ => a.1 ≤ b.1 := by
    unfold preprocess_norm
    rw [List.pairwise_map]
    exact hsorted
  unfold preprocess_lightcurve preprocess_kept
  rw [List.pairwise_map]
  exact List.Pairwise.sublist (List.filter_sublist _) hnorm

lemma preprocess_points_some (t f : List ℚ) :
    preprocess_points (t.map some) (f.map some) = t.zip f := by
  unfold preprocess_points
  rw [List.zip_map, List.filterMap_map]
  have h : ((fun p : RawV × RawV => p.1.bind fun a => p.2.map fun b => (a, b))
      ∘ Prod.map some some) = fun p : ℚ × ℚ => some p := by
    funext p
    rfl
  rw [h, List.filterMap_some]

/-- C5 (amended): re-running the preprocessor on its own output performs no
finiteness filtering and no reordering — the second pass's time column is a
sublist of the first pass's time column, whose entries it leaves unchanged,
and the first pass's time column is already sorted — but the second pass
renormalizes flux by the new median and its sigma clip can remove further
points, so preprocessing is not idempotent as claimed (see the
counterexample, where the second pass removes every remaining point). -/
theorem C5_second_pass_sublist (time flux : List ℚ) :
    (preprocessQ (preprocessQ time flux).1 (preprocessQ time flux).2).1.Sublist
      (preprocessQ time flux).1
    ∧ (preprocessQ time flux).1.Pairwise (· ≤ ·) := by
  have hp : (preprocessQ time flux).1.Pairwise (· ≤ ·) :=
    preprocess_fst_pairwise (time.map some) (flux.map some)
  refine ⟨?_, hp⟩
  have hlen : (preprocessQ time flux).1.length = (preprocessQ time flux).2.length :=
    preprocess_length_eq (time.map some) (flux.map some)
  have hzip : (((preprocessQ time flux).1.zip (preprocessQ time flux).2).map
      Prod.fst) = (preprocessQ time flux).1 :=
    List.map_fst_zip _ _ (le_of_eq hlen)
  have hsorted2 : preprocess_sorted ((preprocessQ time flux).1.map some)
      ((preprocessQ time flux).2.map some)
      = (preprocessQ time flux).1.zip (preprocessQ time flux).2 := by
    unfold preprocess_sorted
    rw [preprocess_points_some]
    apply List.Sorted.insertionSort_eq
    refine List.pairwise_map.mp ?_
    rw [hzip]
    exact hp
  show (preprocess_lightcurve ((preprocessQ time flux).1.map some)
      ((preprocessQ time flux).2.map some)).1.Sublist (preprocessQ time flux).1
  unfold preprocess_lightcurve preprocess_kept preprocess_norm
  rw [hsorted2, List.filter_map, List.map_map]
  have hfst : (Prod.fst ∘ fun p : ℚ × ℚ =>
      (p.1, p.2 / medianQ (((preprocessQ time flux).1.zip
        (preprocessQ time flux).2).map Prod.snd))) = Prod.fst := by
    funext p
    rfl
  rw [hfst]
  exact List.Sublist.trans (List.Sublist.map Prod.fst (List.filter_sublist _))
    (by rw [hzip])

/-- C5 witness: the sublist and sortedness facts at the ten-point outlier
series. -/
theorem C5_witness :
    (preprocessQ (preprocessQ timesC5 fluxC5).1 (preprocessQ timesC5 fluxC5).2).1.Sublist
      (preprocessQ timesC5 fluxC5).1
    ∧ (preprocessQ timesC5 fluxC5).1.Pairwise (· ≤ ·) :=
  C5_second_pass_sublist timesC5 fluxC5

/-- C5 counterexample: preprocessing the ten-point series keeps nine points
whose cleaned flux is constant; re-running the preprocessor on that output
sigma-clips every point (with zero deviation the strict `< 3 * std`
comparison fails), removing nine additional points — preprocessing is not
idempotent. -/
theorem C5_cex_not_idempotent :
    (preprocessQ timesC5 fluxC5).1.length = 9
    ∧ (preprocessQ (preprocessQ timesC5 fluxC5).1 (preprocessQ timesC5 fluxC5).2).1.length
        = 0 := by
  constructor
  · with_unfolding_all decide
  · with_unfolding_all decide

end RealML
